import Mathlib

/-!
Shallow embedding of the transaction/block verification pipeline of
cita-common (`src/libproto/src/lib.rs`) and of the hashed-key trie wrapper
(`src/util/src/trie/sectriedb.rs`).

External collaborators (the hash function, the canonical protobuf codec,
the secp signature scheme, the Merkle-tree builder, the RLP value codec and
the raw trie) are modelled as abstract function bundles; the repository's
own functions are translated line by line against them.  Digests (`H256`)
are modelled as `Nat`, byte strings as `List Nat`.
-/

namespace CitaCommon

/-- Modelled from the spec: the scheme tag is "a closed set of variants"
(`Crypto` is a protobuf-generated enum not present under `src/`); `SECP` is
the one variant `recover_public` supports, `SM2` stands for the remaining
variants caught by the `_` arm. -/
inductive Crypto where
  | SECP
  | SM2
deriving DecidableEq, Repr

/-- Modelled from the spec: the plaintext transaction (a protobuf message not
present under `src/`): payload bytes, nonce, destination, expiry height,
quota, transfer amount bytes, chain identifier.  Field names follow the
setters used in `src/libproto/src/lib.rs`. -/
structure Transaction where
  «to» : String
  nonce : String
  quota : Nat
  valid_until_block : Nat
  data : List Nat
  value : List Nat
  chain_id : Nat
deriving DecidableEq, Repr

/-- Modelled from the spec: a Transaction plus signature bytes and a scheme
tag (protobuf message `UnverifiedTransaction`). -/
structure UnverifiedTransaction where
  transaction : Transaction
  signature : List Nat
  crypto : Crypto
deriving DecidableEq, Repr

/-- Modelled from the spec: a verified `UnverifiedTransaction` plus the
recovered signer public-key bytes and a cached identity hash (protobuf
message `SignedTransaction`; the cached `tx_hash` bytes are modelled as the
digest they denote). -/
structure SignedTransaction where
  transaction_with_sig : UnverifiedTransaction
  tx_hash : Nat
  signer : List Nat
deriving DecidableEq, Repr

/-- The external primitives `src/libproto/src/lib.rs` delegates to: the
canonical codec (`try_into` to bytes), the hash provider (`crypt_hash`),
the secp signature scheme (`Signature::sign`, `Signature::recover`,
`KeyPair::from_privkey(..).pubkey()`, `SIGNATURE_BYTES_LEN`) and the Merkle
tree builder (`merklehash::MerkleTree::from_hashes(..).get_root_hash()`).
Private keys are `Nat`, public keys are their byte representation
`List Nat` (the code always calls `pubkey.to_vec()`). -/
structure Externals where
  encodeTx : Transaction → List Nat
  encodeUtx : UnverifiedTransaction → List Nat
  crypt_hash : List Nat → Nat
  SIGNATURE_BYTES_LEN : Nat
  sign : Nat → Nat → List Nat
  recover : Nat → List Nat → Option (List Nat)
  pubkeyOf : Nat → List Nat
  merkleRoot : List Nat → Nat

/-- `Transaction::build_unverified` (src/libproto/src/lib.rs:96-105):
hash the canonical encoding of the inner transaction, sign that hash with
the private key, store the signature bytes and the `SECP` tag. -/
def Transaction.build_unverified (E : Externals) (t : Transaction) (sk : Nat) :
    UnverifiedTransaction :=
  { transaction := t
  , signature := E.sign sk (E.crypt_hash (E.encodeTx t))
  , crypto := Crypto.SECP }

/-- `UnverifiedTransaction::crypt_hash` (src/libproto/src/lib.rs:137-140):
the identity hash of the outer artifact, over its own canonical encoding. -/
def UnverifiedTransaction.crypt_hash (E : Externals) (u : UnverifiedTransaction) : Nat :=
  E.crypt_hash (E.encodeUtx u)

/-- `UnverifiedTransaction::recover_public` (src/libproto/src/lib.rs:110-135):
check the signature length, dispatch on the scheme tag, recover the public
key from (inner-transaction hash, signature); every outcome carries the
outer identity hash. -/
def UnverifiedTransaction.recover_public (E : Externals) (u : UnverifiedTransaction) :
    Except (Nat × String) (List Nat × Nat) :=
  let hash := E.crypt_hash (E.encodeTx u.transaction)
  let tx_hash := u.crypt_hash E
  if u.signature.length ≠ E.SIGNATURE_BYTES_LEN then
    .error (tx_hash, "Invalid signature length")
  else
    match u.crypto with
    | Crypto.SECP =>
      match E.recover hash u.signature with
      | some pubkey => .ok (pubkey, tx_hash)
      | none => .error (tx_hash, "Recover error")
    | _ => .error (tx_hash, "Unexpected crypto")

/-- `SignedTransaction::verify_transaction` (src/libproto/src/lib.rs:173-180):
on `recover_public` failure keep only the hash; on success build the
`SignedTransaction` from the recovered key, the returned hash and the
wrapped artifact. -/
def SignedTransaction.verify_transaction (E : Externals) (u : UnverifiedTransaction) :
    Except Nat SignedTransaction :=
  match u.recover_public E with
  | .error (hash, _) => .error hash
  | .ok (public, tx_hash) =>
    .ok { transaction_with_sig := u, tx_hash := tx_hash, signer := public }

/-- `SignedTransaction::crypt_hash` (src/libproto/src/lib.rs:182-184):
reads back the cached `tx_hash` field. -/
def SignedTransaction.crypt_hash (st : SignedTransaction) : Nat :=
  st.tx_hash

/-- Modelled from the spec: the correlatable verification-request record
(protobuf message `VerifyTxReq`); fields in the order
`tx_verify_req_msg` sets them, plus the optional signer. -/
structure VerifyTxReq where
  valid_until_block : Nat
  hash : Nat
  crypto : Crypto
  signature : List Nat
  nonce : String
  value : List Nat
  chain_id : Nat
  quota : Nat
  tx_hash : Nat
  signer : Option (List Nat)
deriving DecidableEq, Repr

/-- Modelled from the spec: a request id plus an ordered sequence of
`VerifyTxReq` (protobuf message `VerifyBlockReq`). -/
structure VerifyBlockReq where
  id : Nat
  reqs : List VerifyTxReq
deriving DecidableEq, Repr

/-- `UnverifiedTransaction::tx_verify_req_msg` (src/libproto/src/lib.rs:142-160):
copy the inner-transaction hash and fields plus the outer identity hash;
the signer stays unset. -/
def UnverifiedTransaction.tx_verify_req_msg (E : Externals) (u : UnverifiedTransaction) :
    VerifyTxReq :=
  { valid_until_block := u.transaction.valid_until_block
  , hash := E.crypt_hash (E.encodeTx u.transaction)
  , crypto := u.crypto
  , signature := u.signature
  , nonce := u.transaction.nonce
  , value := u.transaction.value
  , chain_id := u.transaction.chain_id
  , quota := u.transaction.quota
  , tx_hash := u.crypt_hash E
  , signer := none }

/-- Modelled from the spec: the block header carries the declared
transaction-set commitment (protobuf message `BlockHeader`; only the field
`check_hash` reads is modelled). -/
structure BlockHeader where
  transactions_root : Nat
deriving DecidableEq, Repr

/-- Modelled from the spec: the block body holds an ordered sequence of
`SignedTransaction` (protobuf message `BlockBody`). -/
structure BlockBody where
  transactions : List SignedTransaction
deriving DecidableEq, Repr

/-- Modelled from the spec: a header plus a body (protobuf message `Block`). -/
structure Block where
  header : BlockHeader
  body : BlockBody
deriving DecidableEq, Repr

/-- `BlockBody::transaction_hashes` (src/libproto/src/lib.rs:246-251):
the cached `tx_hash` of each contained transaction, in body order. -/
def BlockBody.transaction_hashes (body : BlockBody) : List Nat :=
  body.transactions.map (fun ts => ts.tx_hash)

/-- `BlockBody::transactions_root` (src/libproto/src/lib.rs:253-255):
feed the hashes to the external Merkle-tree builder. -/
def BlockBody.transactions_root (E : Externals) (body : BlockBody) : Nat :=
  E.merkleRoot body.transaction_hashes

/-- `Block::check_hash` (src/libproto/src/lib.rs:212-214): compare the
computed root with the header's declared root. -/
def Block.check_hash (E : Externals) (b : Block) : Bool :=
  b.body.transactions_root E == b.header.transactions_root

/-- `Block::block_verify_req` (src/libproto/src/lib.rs:216-230): iterate the
body transactions in order, build each per-tx request and inject the signer
asserted by the wrapper; the source's push loop is the map below. -/
def Block.block_verify_req (E : Externals) (b : Block) (request_id : Nat) :
    VerifyBlockReq :=
  { id := request_id
  , reqs := b.body.transactions.map (fun signed_tx =>
      { signed_tx.transaction_with_sig.tx_verify_req_msg E with
          signer := some signed_tx.signer }) }

/-- Modelled from the spec: the opaque consensus proof artifact (protobuf
message `Proof`, not present under `src/`); its only contract here is its
canonical byte encoding, so it is modelled as the bytes it holds. -/
structure Proof where
  content : List Nat
deriving DecidableEq, Repr

/-- The external primitives the `Proof` codec delegates to: the RLP value
codec (`encoder().encode_value`, `decoder().decode_value`) and the protobuf
codec for `Proof` (`try_into` to bytes, fallible `Proof::try_from`). -/
structure ProofExternals where
  encode_value : List Nat → List Nat
  decode_value : List Nat → Except String (List Nat)
  proofToBytes : Proof → List Nat
  proofTryFrom : List Nat → Option Proof

/-- `impl Encodable for Proof` (src/libproto/src/lib.rs:196-201): serialize
the proof with the protobuf codec and append it as one RLP value. -/
def Proof.rlp_append (X : ProofExternals) (p : Proof) : List Nat :=
  X.encode_value (X.proofToBytes p)

/-- `impl Decodable for Proof` (src/libproto/src/lib.rs:189-194): extract the
RLP value payload and parse it back with `Proof::try_from(bytes).unwrap()`.
The outer `Option` is `none` exactly when that `.unwrap()` panics, i.e. when
the payload is not a parseable protobuf `Proof`. -/
def Proof.decode (X : ProofExternals) (bytes : List Nat) :
    Option (Except String Proof) :=
  match X.decode_value bytes with
  | .error e => some (.error e)
  | .ok b =>
    match X.proofTryFrom b with
    | some p => some (.ok p)
    | none => none

/-- The raw trie `SecTrieDB` wraps (`TrieDB` lives outside `src/`, so its two
lookup operations are abstract): `contains` over raw key bytes, and
`get_with` over raw key bytes and a query `Q` producing items `I`.  Errors
are `super::Result`'s error case. -/
structure TrieDB (Q I : Type) where
  contains : List Nat → Except String Bool
  get_with : List Nat → Q → Except String (Option I)

/-- `SecTrieDB` (src/util/src/trie/sectriedb.rs:27-29): a wrapper holding the
backing raw `TrieDB`. -/
structure SecTrieDB (Q I : Type) where
  raw : TrieDB Q I

/-- `SecTrieDB::contains` (src/util/src/trie/sectriedb.rs:61-63): consult the
raw trie at the digest of the key; `ch` is the external `crypt_hash` over
key bytes, its digest used as the raw key. -/
def SecTrieDB.contains {Q I : Type} (ch : List Nat → List Nat)
    (t : SecTrieDB Q I) (key : List Nat) : Except String Bool :=
  t.raw.contains (ch key)

/-- `SecTrieDB::get_with` (src/util/src/trie/sectriedb.rs:65-70): consult the
raw trie at the digest of the key with the caller's query. -/
def SecTrieDB.get_with {Q I : Type} (ch : List Nat → List Nat)
    (t : SecTrieDB Q I) (key : List Nat) (query : Q) : Except String (Option I) :=
  t.raw.get_with (ch key) query

/-! Concrete instances of the external bundles, used to evaluate the
definitions at concrete inputs.  `toyE` satisfies the scheme's contract:
signatures have the declared fixed length and `recover` inverts `sign`. -/

/-- A concrete external bundle: signatures are the 2-byte pair
(private key, message hash); recovery reads the key back. -/
def toyE : Externals :=
  { encodeTx := fun t => t.data ++ [t.quota]
  , encodeUtx := fun u => u.transaction.data ++ u.signature
  , crypt_hash := fun l => l.sum
  , SIGNATURE_BYTES_LEN := 2
  , sign := fun k h => [k, h]
  , recover := fun _ s =>
      match s with
      | [k, _] => some [k + 1]
      | _ => none
  , pubkeyOf := fun k => [k + 1]
  , merkleRoot := fun l => l.sum + 1 }

/-- The transaction of the repository's own test `create_tx`. -/
def tx0 : Transaction :=
  { «to» := "123", nonce := "0", quota := 999999999
  , valid_until_block := 99999, data := [1], value := [], chain_id := 0 }

/-- An artifact whose signature has the wrong length (empty). -/
def utxBadLen : UnverifiedTransaction :=
  { transaction := tx0, signature := [], crypto := Crypto.SECP }

/-- An artifact with an unsupported scheme tag and a wrong-length signature. -/
def utxBothBad : UnverifiedTransaction :=
  { transaction := tx0, signature := [], crypto := Crypto.SM2 }

/-- An artifact with an unsupported scheme tag and a correct-length signature. -/
def utxSm2 : UnverifiedTransaction :=
  { transaction := tx0, signature := [0, 0], crypto := Crypto.SM2 }

/-- A signed transaction used in concrete blocks. -/
def sTx0 : SignedTransaction :=
  { transaction_with_sig := { transaction := tx0, signature := [5, 6], crypto := Crypto.SECP }
  , tx_hash := 42
  , signer := [9] }

/-- A concrete one-transaction block whose header declares the root the toy
Merkle builder computes. -/
def blk0 : Block :=
  { header := { transactions_root := 43 }
  , body := { transactions := [sTx0] } }

/-- A concrete proof codec bundle satisfying both round-trip contracts: the
RLP value codec prefixes the payload with its length, the protobuf codec is
the identity on the held bytes. -/
def toyPX : ProofExternals :=
  { encode_value := fun b => b.length :: b
  , decode_value := fun l =>
      match l with
      | [] => .error "rlp: empty"
      | n :: rest => if rest.length = n then .ok rest else .error "rlp: length"
  , proofToBytes := fun p => p.content
  , proofTryFrom := fun b => some { content := b } }

/-- A proof codec bundle whose protobuf parser rejects the 1-byte payload
`[8]` (a truncated protobuf field header), as the real parser does. -/
def toyPXstrict : ProofExternals :=
  { toyPX with
      proofTryFrom := fun b => if b = [8] then none else some { content := b } }

/-- A concrete raw trie over queries `Nat` and items `Nat`: membership and
lookups are determined by the raw key handed in. -/
def toyRaw : TrieDB Nat Nat :=
  { contains := fun k => .ok (decide (k.sum % 2 = 0))
  , get_with := fun k q => .ok (some (k.sum + q)) }

/-- The wrapper around `toyRaw`. -/
def toySec : SecTrieDB Nat Nat :=
  { raw := toyRaw }

/-- A concrete key-hash over key bytes: the digest is the byte sum. -/
def toyCh : List Nat → List Nat :=
  fun l => [l.sum]

/-! Helper lemmas shared by the claim theorems. -/

/-- Every outcome of `recover_public` carries the outer identity hash: errors
pair it with a message, successes pair the recovered key with it. -/
theorem recover_public_cases (E : Externals) (u : UnverifiedTransaction) :
    (∃ m, u.recover_public E = .error (u.crypt_hash E, m))
    ∨ (∃ p, u.recover_public E = .ok (p, u.crypt_hash E)) := by
  unfold UnverifiedTransaction.recover_public
  by_cases hl : u.signature.length ≠ E.SIGNATURE_BYTES_LEN
  · exact Or.inl ⟨"Invalid signature length", by simp [hl]⟩
  · cases hc : u.crypto with
    | SECP =>
      cases hr : E.recover (E.crypt_hash (E.encodeTx u.transaction)) u.signature with
      | none => exact Or.inl ⟨"Recover error", by simp [hl, hc, hr]⟩
      | some p => exact Or.inr ⟨p, by simp [hl, hc, hr]⟩
    | SM2 => exact Or.inl ⟨"Unexpected crypto", by simp [hl, hc]⟩

/-- The hash in a `recover_public` error is the outer identity hash. -/
theorem recover_public_error_hash (E : Externals) (u : UnverifiedTransaction)
    (h : Nat) (m : String) (he : u.recover_public E = .error (h, m)) :
    h = u.crypt_hash E := by
  rcases recover_public_cases E u with ⟨m2, hrp⟩ | ⟨p, hrp⟩ <;>
    have hc := hrp.symm.trans he <;> simp at hc
  exact hc.1.symm

/-- The hash in a `recover_public` success is the outer identity hash. -/
theorem recover_public_ok_hash (E : Externals) (u : UnverifiedTransaction)
    (p : List Nat) (h : Nat) (he : u.recover_public E = .ok (p, h)) :
    h = u.crypt_hash E := by
  rcases recover_public_cases E u with ⟨m2, hrp⟩ | ⟨p2, hrp⟩ <;>
    have hc := hrp.symm.trans he <;> simp at hc
  exact hc.2.symm

/-- C1: sign-then-verify round trip.  For every transaction and every private
key the scheme handles (its signature over the inner-transaction hash has the
declared length and recovery returns its derived public key),
`verify_transaction (build_unverified t sk)` succeeds, and the resulting
`SignedTransaction` wraps the built artifact, caches its outer identity hash,
and records the derived public key as signer. -/
theorem build_then_verify_roundtrip (E : Externals) (t : Transaction) (sk : Nat)
    (hlen : (E.sign sk (E.crypt_hash (E.encodeTx t))).length = E.SIGNATURE_BYTES_LEN)
    (hrec : E.recover (E.crypt_hash (E.encodeTx t)) (E.sign sk (E.crypt_hash (E.encodeTx t)))
        = some (E.pubkeyOf sk)) :
    SignedTransaction.verify_transaction E (t.build_unverified E sk)
      = .ok { transaction_with_sig := t.build_unverified E sk
            , tx_hash := (t.build_unverified E sk).crypt_hash E
            , signer := E.pubkeyOf sk } := by
  simp [SignedTransaction.verify_transaction, UnverifiedTransaction.recover_public,
        Transaction.build_unverified, hlen, hrec]

/-- C1 witness: the round trip at the repository test's transaction with the
concrete scheme and private key 5. -/
theorem build_then_verify_roundtrip_witness :
    (toyE.sign 5 (toyE.crypt_hash (toyE.encodeTx tx0))).length = toyE.SIGNATURE_BYTES_LEN
    ∧ SignedTransaction.verify_transaction toyE (tx0.build_unverified toyE 5)
        = .ok { transaction_with_sig := tx0.build_unverified toyE 5
              , tx_hash := (tx0.build_unverified toyE 5).crypt_hash toyE
              , signer := toyE.pubkeyOf 5 } :=
  ⟨by decide, build_then_verify_roundtrip toyE tx0 5 (by decide) (by decide)⟩

/-- C3: `verify_transaction` fails exactly when `recover_public` fails; on
failure it returns only the outer identity hash (the hash of the canonical
encoding of the artifact itself), discarding the message; on success it
returns a `SignedTransaction` whose signer is the recovered key, whose cached
hash is that same outer identity hash, and which wraps the input. -/
theorem verify_transaction_spec (E : Externals) (u : UnverifiedTransaction) :
    ((SignedTransaction.verify_transaction E u).isOk = (u.recover_public E).isOk)
    ∧ (∀ h m, u.recover_public E = .error (h, m) →
        SignedTransaction.verify_transaction E u
          = .error (E.crypt_hash (E.encodeUtx u)))
    ∧ (∀ p h, u.recover_public E = .ok (p, h) →
        SignedTransaction.verify_transaction E u
          = .ok { transaction_with_sig := u
                , tx_hash := E.crypt_hash (E.encodeUtx u)
                , signer := p }) := by
  refine ⟨?_, ?_, ?_⟩
  · rcases recover_public_cases E u with ⟨m, hrp⟩ | ⟨p, hrp⟩ <;>
      simp [SignedTransaction.verify_transaction, hrp, Except.isOk, Except.toBool]
  · intro h m hrp
    have hh := recover_public_error_hash E u h m hrp
    rw [UnverifiedTransaction.crypt_hash] at hh
    simp [SignedTransaction.verify_transaction, hrp, hh]
  · intro p h hrp
    have hh := recover_public_ok_hash E u p h hrp
    rw [UnverifiedTransaction.crypt_hash] at hh
    simp [SignedTransaction.verify_transaction, hrp, hh]

/-- C3 witness: a concrete failing artifact is collapsed to its outer
identity hash. -/
theorem verify_transaction_spec_witness :
    utxBadLen.recover_public toyE
        = .error (toyE.crypt_hash (toyE.encodeUtx utxBadLen), "Invalid signature length")
    ∧ SignedTransaction.verify_transaction toyE utxBadLen
        = .error (toyE.crypt_hash (toyE.encodeUtx utxBadLen)) :=
  ⟨rfl, (verify_transaction_spec toyE utxBadLen).2.1
    (toyE.crypt_hash (toyE.encodeUtx utxBadLen)) "Invalid signature length" rfl⟩

/-- C4: whenever the signature length differs from the scheme's declared
length, `recover_public` fails with the invalid-signature-length error paired
with the outer identity hash, regardless of the scheme tag (the length check
precedes scheme dispatch and recovery). -/
theorem recover_public_invalid_length (E : Externals) (u : UnverifiedTransaction)
    (hlen : u.signature.length ≠ E.SIGNATURE_BYTES_LEN) :
    u.recover_public E = .error (u.crypt_hash E, "Invalid signature length") := by
  simp [UnverifiedTransaction.recover_public, hlen]

/-- C4 witness: the empty signature (length 0 ≠ 2) fails with the
invalid-signature-length error. -/
theorem recover_public_invalid_length_witness :
    utxBadLen.signature.length ≠ toyE.SIGNATURE_BYTES_LEN
    ∧ utxBadLen.recover_public toyE
        = .error (utxBadLen.crypt_hash toyE, "Invalid signature length") :=
  ⟨by decide, recover_public_invalid_length toyE utxBadLen (by decide)⟩

/-- C5 counterexample: an artifact whose scheme tag is unsupported but whose
signature also has the wrong length fails with the invalid-signature-length
error, not the unsupported-scheme error, refuting the claim as stated. -/
theorem recover_public_unsupported_scheme_counterexample :
    utxBothBad.crypto = Crypto.SM2
    ∧ utxBothBad.recover_public toyE
        = .error (utxBothBad.crypt_hash toyE, "Invalid signature length")
    ∧ utxBothBad.recover_public toyE
        ≠ .error (utxBothBad.crypt_hash toyE, "Unexpected crypto") := by
  refine ⟨rfl, rfl, ?_⟩
  intro h
  rw [show utxBothBad.recover_public toyE
        = .error (utxBothBad.crypt_hash toyE, "Invalid signature length") from rfl] at h
  simp at h

/-- C5 amended: whenever the signature has the declared length and the scheme
tag is not a supported variant, `recover_public` fails with the
unsupported-scheme error paired with the outer identity hash; unknown tags
are never defaulted to a supported scheme. -/
theorem recover_public_unsupported_scheme (E : Externals) (u : UnverifiedTransaction)
    (hlen : u.signature.length = E.SIGNATURE_BYTES_LEN)
    (hc : u.crypto ≠ Crypto.SECP) :
    u.recover_public E = .error (u.crypt_hash E, "Unexpected crypto") := by
  cases hcr : u.crypto with
  | SECP => exact absurd hcr hc
  | SM2 => simp [UnverifiedTransaction.recover_public, hlen, hcr]

/-- C5 witness: an unsupported tag with a correct-length signature fails with
the unsupported-scheme error. -/
theorem recover_public_unsupported_scheme_witness :
    utxSm2.signature.length = toyE.SIGNATURE_BYTES_LEN
    ∧ utxSm2.crypto ≠ Crypto.SECP
    ∧ utxSm2.recover_public toyE
        = .error (utxSm2.crypt_hash toyE, "Unexpected crypto") :=
  ⟨by decide, by decide,
   recover_public_unsupported_scheme toyE utxSm2 (by decide) (by decide)⟩

/-- C2: `check_hash` is true exactly when the external Merkle-tree builder,
fed the identity hashes of the body transactions in body order, returns the
root the header declares. -/
theorem check_hash_iff (E : Externals) (b : Block) :
    b.check_hash E = true ↔
      E.merkleRoot (b.body.transactions.map (fun ts => ts.crypt_hash))
        = b.header.transactions_root := by
  simp [Block.check_hash, BlockBody.transactions_root, BlockBody.transaction_hashes,
        SignedTransaction.crypt_hash]

/-- C6: `block_verify_req` keeps the request id, produces one request per
body transaction, and at every index the request is the per-tx request of
that transaction's wrapped artifact with the wrapper's asserted signer
injected. -/
theorem block_verify_req_spec (E : Externals) (b : Block) (r : Nat) :
    (b.block_verify_req E r).id = r
    ∧ (b.block_verify_req E r).reqs.length = b.body.transactions.length
    ∧ ∀ i (hi : i < b.body.transactions.length),
        (b.block_verify_req E r).reqs[i]? =
          some { (b.body.transactions[i]).transaction_with_sig.tx_verify_req_msg E with
                   signer := some (b.body.transactions[i]).signer } := by
  refine ⟨rfl, by simp [Block.block_verify_req], ?_⟩
  intro i hi
  simp [Block.block_verify_req, List.getElem?_map, List.getElem?_eq_getElem hi]

/-- C6 witness: the one-transaction block at request id 7. -/
theorem block_verify_req_spec_witness :
    0 < blk0.body.transactions.length
    ∧ (blk0.block_verify_req toyE 7).reqs[0]? =
        some { sTx0.transaction_with_sig.tx_verify_req_msg toyE with
                 signer := some sTx0.signer } :=
  ⟨by decide, (block_verify_req_spec toyE blk0 7).2.2 0 (by decide)⟩

/-- C7: `transaction_hashes` returns the identity hash of each contained
`SignedTransaction` in body order: same length as the transaction sequence,
and pointwise the i-th hash is the i-th transaction's identity hash. -/
theorem transaction_hashes_spec (body : BlockBody) :
    body.transaction_hashes.length = body.transactions.length
    ∧ ∀ i (hi : i < body.transactions.length),
        body.transaction_hashes[i]? = some (body.transactions[i]).crypt_hash := by
  refine ⟨by simp [BlockBody.transaction_hashes], ?_⟩
  intro i hi
  simp [BlockBody.transaction_hashes, List.getElem?_map, List.getElem?_eq_getElem hi,
        SignedTransaction.crypt_hash]

/-- C7 witness: the singleton body. -/
theorem transaction_hashes_spec_witness :
    0 < blk0.body.transactions.length
    ∧ blk0.body.transaction_hashes[0]? = some sTx0.crypt_hash :=
  ⟨by decide, (transaction_hashes_spec blk0.body).2 0 (by decide)⟩

/-- C8: the `Proof` codec round trip.  Whenever the external RLP value codec
and the external protobuf codec each invert their own encoders, decoding the
bytes this system encodes returns the original proof (no panic), and any
byte string produced by this system's encoder decodes to a proof that
re-encodes to exactly those bytes. -/
theorem proof_codec_roundtrip (X : ProofExternals)
    (hrlp : ∀ b, X.decode_value (X.encode_value b) = .ok b)
    (hpb : ∀ p, X.proofTryFrom (X.proofToBytes p) = some p) :
    (∀ p, Proof.decode X (Proof.rlp_append X p) = some (.ok p))
    ∧ ∀ bs p, bs = Proof.rlp_append X p →
        ∃ q, Proof.decode X bs = some (.ok q) ∧ Proof.rlp_append X q = bs := by
  have h1 : ∀ p, Proof.decode X (Proof.rlp_append X p) = some (.ok p) := by
    intro p
    simp [Proof.decode, Proof.rlp_append, hrlp, hpb]
  exact ⟨h1, fun bs p hb => ⟨p, hb ▸ h1 p, hb.symm⟩⟩

/-- C8 witness: the round trip at a concrete proof under the concrete codec
bundle, whose two external codecs do invert their encoders. -/
theorem proof_codec_roundtrip_witness :
    Proof.decode toyPX (Proof.rlp_append toyPX { content := [1, 2, 3] })
      = some (.ok { content := [1, 2, 3] }) :=
  (proof_codec_roundtrip toyPX (fun b => by simp [toyPX])
    (fun p => by simp [toyPX])).1 { content := [1, 2, 3] }

/-- C9: evaluating the decoder at a failing input.  With a protobuf parser
that rejects the payload `[8]`, decoding the RLP encoding of `[8]` reaches
the `Proof::try_from(bytes).unwrap()` call on a failed parse — the `none`
outcome modelling the panic — rather than returning a malformed-proof error
value as the claim requires. -/
theorem proof_decode_panics_on_malformed :
    Proof.decode toyPXstrict (toyPXstrict.encode_value [8]) = none := by
  rfl

/-- C10: `SecTrieDB` looks up hashed keys only: `contains` and `get_with`
return exactly what the raw trie returns at the key's digest, so any two
keys with equal digests are indistinguishable through the wrapper. -/
theorem sectriedb_hashed_lookup {Q I : Type} (ch : List Nat → List Nat)
    (t : SecTrieDB Q I) :
    (∀ k, SecTrieDB.contains ch t k = t.raw.contains (ch k))
    ∧ (∀ k q, SecTrieDB.get_with ch t k q = t.raw.get_with (ch k) q)
    ∧ ∀ k1 k2, ch k1 = ch k2 →
        SecTrieDB.contains ch t k1 = SecTrieDB.contains ch t k2
        ∧ ∀ q, SecTrieDB.get_with ch t k1 q = SecTrieDB.get_with ch t k2 q := by
  refine ⟨fun k => rfl, fun k q => rfl, ?_⟩
  intro k1 k2 hk
  exact ⟨by simp [SecTrieDB.contains, hk], fun q => by simp [SecTrieDB.get_with, hk]⟩

/-- C10 witness: the keys `[1, 2]` and `[3]` share the digest `[3]` under the
concrete key-hash and are indistinguishable through the wrapper. -/
theorem sectriedb_hashed_lookup_witness :
    toyCh [1, 2] = toyCh [3]
    ∧ SecTrieDB.contains toyCh toySec [1, 2] = SecTrieDB.contains toyCh toySec [3]
    ∧ SecTrieDB.get_with toyCh toySec [1, 2] 7 = SecTrieDB.get_with toyCh toySec [3] 7 :=
  ⟨by decide,
   ((sectriedb_hashed_lookup toyCh toySec).2.2 [1, 2] [3] (by decide)).1,
   ((sectriedb_hashed_lookup toyCh toySec).2.2 [1, 2] [3] (by decide)).2 7⟩

end CitaCommon
